import Mathlib

/-!
Verification of the option-normalization and response-reconciliation core of
the gpt-image-1 MCP server (TypeScript).

Shallow embedding conventions:
* JavaScript numbers are modelled as `ℚ` (exact rationals).  All arithmetic
  appearing in the embedded code (products, sums, absolute differences,
  comparisons) is exact in IEEE doubles for the magnitudes exercised by the
  theorems below, so the rational model agrees with the source on them.
* JavaScript string falsiness (`!s` true for `""`, `null`, `undefined`) is
  modelled by `Option String` plus an explicit emptiness test.
* Fallible external effects (HTTP fetch, base64 decode, filesystem calls) are
  modelled as explicit oracle functions returning `Option`/`Bool`, passed in
  as an environment; `none`/`false` models the call throwing or failing.
* File-system writes performed by the reconciliation loops are tracked
  explicitly in a `written` list so that persistence claims are statable.
-/

namespace GptImage

/-! ## Size normalization — src/utils/params.ts, `normalizeSize` (lines 14-62) -/

/-- `const SUPPORTED_SIZES = ['1024x1024', '1024x1536', '1536x1024']` (line 5). -/
def SUPPORTED_SIZES : List String := ["1024x1024", "1024x1536", "1536x1024"]

/-- `parseInt(ds, 10)` on a nonempty all-digit string.  Exact, whereas JS uses
doubles; the two agree below `2^53`, which covers every input used in a
theorem in this file. -/
def digitsToNat (cs : List Char) : Nat :=
  cs.foldl (fun a c => 10 * a + (c.toNat - 48)) 0

/-- Attempt of the regex `/(\d+)x(\d+)/i` anchored at the start of `cs`:
a nonempty digit run, an `x` or `X`, and a nonempty digit run.  The `\d+` is
greedy and — since `x` is not a digit — needs no backtracking. -/
def tryMatchAt (cs : List Char) : Option (Nat × Nat) :=
  let p1 := cs.span Char.isDigit
  if p1.1.isEmpty then none
  else
    match p1.2 with
    | [] => none
    | c :: rest2 =>
      if c = 'x' ∨ c = 'X' then
        let p2 := rest2.span Char.isDigit
        if p2.1.isEmpty then none
        else some (digitsToNat p1.1, digitsToNat p2.1)
      else none

/-- `size.match(/(\d+)x(\d+)/i)` (line 25): an UNANCHORED leftmost search —
the regex is not anchored with `^`/`$`, so any string containing a
digits-x-digits substring matches, surrounding characters notwithstanding. -/
def findSizeMatch : List Char → Option (Nat × Nat)
  | [] => none
  | c :: cs =>
    match tryMatchAt (c :: cs) with
    | some r => some r
    | none => findSizeMatch cs

/-- Exact model of a JavaScript number as an unreduced fraction `num / den`.
Every value built by the embedded code keeps `den > 0` (numerators come from
naturals; the only divisions are by the positive supported dimensions and by
a positive requested height), so `lt`/`le` below are the real-number
comparisons of the represented values.  The IEEE-double rounding of the
source introduces relative errors below `2⁻⁵²`, far smaller than every
margin appearing in the theorems of this file, so the exact model decides
each comparison the same way the source does. -/
structure JsNum where
  num : Int
  den : Int
deriving DecidableEq

def jsOfNat (n : Nat) : JsNum := ⟨n, 1⟩

def jsMul (a b : JsNum) : JsNum := ⟨a.num * b.num, a.den * b.den⟩

def jsAdd (a b : JsNum) : JsNum := ⟨a.num * b.den + b.num * a.den, a.den * b.den⟩

def jsSub (a b : JsNum) : JsNum := ⟨a.num * b.den - b.num * a.den, a.den * b.den⟩

def jsDiv (a b : JsNum) : JsNum := ⟨a.num * b.den, a.den * b.num⟩

/-- `a < b` on represented values (dens positive in all uses). -/
def jsLt (a b : JsNum) : Bool := a.num * b.den < b.num * a.den

/-- `a ≤ b` on represented values (dens positive in all uses). -/
def jsLe (a b : JsNum) : Bool := a.num * b.den ≤ b.num * a.den

/-- `Math.abs`. -/
def jsAbs (a : JsNum) : JsNum := if a.num * a.den < 0 then ⟨-a.num, a.den⟩ else a

/-- `Number.MAX_VALUE` (line 36), the largest finite double: the literal is
`(2^53 - 1) * 2^971` written out. -/
def jsMaxValue : JsNum :=
  ⟨179769313486231570814527423731704356798070567525844996598917476803157260780028538760589558632766878171540458953514382464234321326889464182768467546703537516986049910576551282076245490090389328944075868508455133942304583236903222948165808559332123348274797826204144723168738177180919299881250404026184124858368, 1⟩

/-- `supportedSize.split('x')` (line 39), specialised to splitting on a
single character, as the source does. -/
def splitOnChar (sep : Char) : List Char → List (List Char)
  | [] => [[]]
  | c :: cs =>
    let r := splitOnChar sep cs
    if c = sep then [] :: r
    else
      match r with
      | hd :: tl => (c :: hd) :: tl
      | [] => [[c]]

/-- `supportedSize.split('x').map(s => parseInt(s, 10))` (line 39), applied in
the source only to the three `SUPPORTED_SIZES` literals. -/
def parseDim (s : String) : Nat × Nat :=
  match splitOnChar 'x' s.data with
  | a :: b :: _ => (digitsToNat a, digitsToNat b)
  | _ => (0, 0)

/-- The loop body score of lines 42-52:
`combinedScore = ratioDifference * 1000 + areaDifference`. -/
def scoreFor (rw rh : Nat) (c : String) : JsNum :=
  let dims := parseDim c
  jsAdd
    (jsMul (jsAbs (jsSub (jsDiv (jsOfNat rw) (jsOfNat rh))
                         (jsDiv (jsOfNat dims.1) (jsOfNat dims.2))))
           (jsOfNat 1000))
    (jsAbs (jsSub (jsMul (jsOfNat rw) (jsOfNat rh))
                  (jsMul (jsOfNat dims.1) (jsOfNat dims.2))))

/-- The selection loop of lines 34-58.  When `rh = 0` the JS ratio
`rw / rh` is `Infinity` (or `NaN` for `0/0`), every `combinedScore` is
non-finite, no comparison `combinedScore < minDifference` succeeds, and the
initial `SUPPORTED_SIZES[0]` is returned; the guard models that directly
since the fraction model has no non-finite values. -/
def closestSupportedSize (rw rh : Nat) : String :=
  if rh = 0 then SUPPORTED_SIZES.headD ""
  else
    (SUPPORTED_SIZES.foldl
      (fun acc c =>
        let score := scoreFor rw rh c
        if jsLt score acc.2 then (c, score) else acc)
      (SUPPORTED_SIZES.headD "", jsMaxValue)).1

/-- `normalizeSize` (src/utils/params.ts lines 14-62).  `none` models the
argument being absent/`undefined`; the `s = ""` disjunct models JS string
falsiness in `if (!size || size === 'auto')`. -/
def normalizeSize (size : Option String) : String :=
  match size with
  | none => "auto"
  | some s =>
    if s = "" ∨ s = "auto" then "auto"
    else if s ∈ SUPPORTED_SIZES then s
    else
      match findSizeMatch s.data with
      | none => "auto"
      | some r => closestSupportedSize r.1 r.2


/-! ## Save-directory resolution — src/utils/params.ts, `resolveSaveDir` (lines 73-117) -/

/-- Filesystem oracle: outcome of `fs.ensureDirSync` (create-with-parents) and
of the `fs.accessSync(p, W_OK)` write probe on a given path.  `false` models
the call throwing. -/
structure FsEnv where
  ensureDirOk : String → Bool
  writableOk : String → Bool

/-- POSIX `path.isAbsolute`. -/
def isAbsolutePath (p : String) : Bool :=
  match p.data with
  | c :: _ => c = '/'
  | [] => false

/-- `path.resolve(cwd, p)` for a relative `p` and absolute `cwd`, modulo
`.`/`..` segment normalization, which no claim exercises. -/
def pathResolve (cwd p : String) : String := cwd ++ "/" ++ p

/-- `path.isAbsolute(p) ? p : path.resolve(cwd, p)` — the pattern used both by
`resolveSaveDir` and by the tool handlers. -/
def resolveAbs (cwd p : String) : String :=
  if isAbsolutePath p then p else pathResolve cwd p

/-- Lines 78-93: pick the target directory.  `none` models an absent
`saveDir`; the `s = ""` test models JS falsiness in `if (!saveDir)`. -/
def resolveTarget (cwd : String) (saveDir : Option String) : String :=
  match saveDir with
  | none => cwd
  | some s => if s = "" then cwd else resolveAbs cwd s

/-- `resolveSaveDir` (lines 73-117): resolve, `ensureDirSync`, then the
`W_OK` probe; each failure falls back to `cwd` — note that neither fallback
re-checks `cwd` itself. -/
def resolveSaveDir (fsv : FsEnv) (cwd : String) (saveDir : Option String) : String :=
  let resolvedPath := resolveTarget cwd saveDir
  if !(fsv.ensureDirOk resolvedPath) then cwd
  else if !(fsv.writableOk resolvedPath) then cwd
  else resolvedPath

/-! ## Response reconciliation — src/services/dalle-service.ts

`generateImage` (lines 129-206), `editImage` (lines 354-424),
`imageToImage` (lines 562-586) and `editMultipleImages` (lines 712-745)
each walk the provider's `data` array, derive one output path per item,
write the decoded bytes, and report the collected paths.  Network fetches
and base64 decoding are oracle functions; `none` models the operation
throwing (`axios.get` rejection resp. buffer-creation failure), which the
surrounding `try`/`catch` converts into a `success:false` result. -/

/-- One element of the provider response's `data` array.  Each field is a
possibly-absent string; `some ""` is present but JS-falsy. -/
structure ResponseItem where
  url : Option String := none
  b64_json : Option String := none
  image : Option String := none
deriving DecidableEq

/-- JS truthiness for an optional string field. -/
def strTruthy : Option String → Bool
  | some s => s != ""
  | none => false

/-- Network/decoding oracle: `fetch` models `axios.get(url)` returning bytes,
`decode` models `Buffer.from(s, 'base64')`; `none` models a throw. -/
structure NetEnv where
  fetch : String → Option (List Nat)
  decode : String → Option (List Nat)

/-- Per-item processing of `generateImage` (lines 136-180): `url` first, then
`b64_json`, then `image`, else the the-data-was-not-found error.  Any
`.error` propagates as a thrown exception to the outer catch. -/
def processItemGen (env : NetEnv) (it : ResponseItem) : Except String (List Nat) :=
  if strTruthy it.url then
    match env.fetch (it.url.getD "") with
    | some bs => .ok bs
    | none => .error "download failed"
  else if strTruthy it.b64_json then
    match env.decode (it.b64_json.getD "") with
    | some bs => .ok bs
    | none => .error "Failed to create image buffer from base64 data."
  else if strTruthy it.image then
    match env.decode (it.image.getD "") with
    | some bs => .ok bs
    | none => .error "Failed to create image buffer from base64 data."
  else .error "Image data not found in expected formats in API response"

/-- Per-item processing of `editImage` (lines 361-419): same field priority
as `generateImage`, with the edit-specific error messages. -/
def processItemEdit (env : NetEnv) (it : ResponseItem) : Except String (List Nat) :=
  if strTruthy it.url then
    match env.fetch (it.url.getD "") with
    | some bs => .ok bs
    | none => .error ("Failed to download edited image from URL: " ++ it.url.getD "")
  else if strTruthy it.b64_json then
    match env.decode (it.b64_json.getD "") with
    | some bs => .ok bs
    | none => .error "Failed to create image buffer from base64 data."
  else if strTruthy it.image then
    match env.decode (it.image.getD "") with
    | some bs => .ok bs
    | none => .error "Failed to create image buffer from base64 data."
  else .error "Image data not found in expected formats (url, b64_json, image) in edit API response"

/-- Per-item processing of `imageToImage` / `editMultipleImages`
(lines 567-579 / 717-728): `Buffer.from(item.image, 'base64')` with no field
fallback; an absent `image` makes `Buffer.from(undefined)` throw a
`TypeError`. -/
def processItemSimple (env : NetEnv) (it : ResponseItem) : Except String (List Nat) :=
  match it.image with
  | none => .error "The first argument must be of type string or an instance of Buffer"
  | some s =>
    match env.decode s with
    | some bs => .ok bs
    | none => .error "Failed to create image buffer from base64 data."

/-- The naming inputs of one operation call: resolved save directory, base
file name, output format and the requested image count `n`. -/
structure OutputSpec where
  saveDir : String
  fileName : String
  output_format : String
  n : Nat
deriving DecidableEq

/-- Destination of item `i` (0-indexed):
`path.join(saveDir, fileName + (n > 1 ? "-" + (i+1) : "") + "." + format)`,
with `path.join` modelled as separator concatenation. -/
def savePath (sp : OutputSpec) (i : Nat) : String :=
  sp.saveDir ++ "/" ++ sp.fileName ++ (if sp.n > 1 then "-" ++ toString (i + 1) else "") ++
    "." ++ sp.output_format

/-- The caller-visible result (src/types/index.ts `ImageGenerationResult`,
restricted to the fields the claims are about; `imagePaths` is `[]` where
the source leaves the field absent). -/
structure ImageGenerationResult where
  success : Bool
  imagePaths : List String := []
  error : Option String := none
deriving DecidableEq

/-- A reconciliation outcome together with the files the loop has written to
disk (`fs.writeFile` happens inside the loop, one file per processed item,
before the next item is examined). -/
structure ReconcileOutcome where
  written : List (String × List Nat)
  result : ImageGenerationResult
deriving DecidableEq

/-- The save loop shared by all four operations: process item `i`, write its
bytes to `savePath sp i`, collect the path; the first per-item error throws,
the catch block returns `success:false` with no `imagePaths` — but files
already written stay written. -/
def saveLoop (proc : ResponseItem → Except String (List Nat)) (sp : OutputSpec) :
    List ResponseItem → Nat → List (String × List Nat) → List String → ReconcileOutcome
  | [], _, written, paths => ⟨written, ⟨true, paths, none⟩⟩
  | it :: rest, i, written, paths =>
    match proc it with
    | .error e => ⟨written, ⟨false, [], some e⟩⟩
    | .ok bs =>
      saveLoop proc sp rest (i + 1) (written ++ [(savePath sp i, bs)]) (paths ++ [savePath sp i])

/-- Response handling of `generateImage` (lines 129-206): an absent,
non-array or empty `data` array throws before the loop
(`"Unexpected API response structure"`); then the save loop runs. -/
def reconcileGenerate (env : NetEnv) (sp : OutputSpec)
    (data : Option (List ResponseItem)) : ReconcileOutcome :=
  match data with
  | none => ⟨[], ⟨false, [], some "Unexpected API response structure. Missing or empty data array."⟩⟩
  | some items =>
    if items.length = 0 then
      ⟨[], ⟨false, [], some "Unexpected API response structure. Missing or empty data array."⟩⟩
    else saveLoop (processItemGen env) sp items 0 [] []

/-- Response handling of `editImage` (lines 354-424): same empty/missing
guard as `generateImage`, then the save loop with the edit item processor. -/
def reconcileEdit (env : NetEnv) (sp : OutputSpec)
    (data : Option (List ResponseItem)) : ReconcileOutcome :=
  match data with
  | none => ⟨[], ⟨false, [], some "Unexpected API response structure. Missing or empty data array."⟩⟩
  | some items =>
    if items.length = 0 then
      ⟨[], ⟨false, [], some "Unexpected API response structure. Missing or empty data array."⟩⟩
    else saveLoop (processItemEdit env) sp items 0 [] []

/-- Response handling of `imageToImage` and `editMultipleImages`
(lines 562-586 / 712-745): NO guard on the `data` array — a missing array
makes `data.data.length` throw a `TypeError` (caught, failure), while an
empty array skips the loop entirely and returns `success:true` with zero
paths. -/
def reconcileSimple (env : NetEnv) (sp : OutputSpec)
    (data : Option (List ResponseItem)) : ReconcileOutcome :=
  match data with
  | none => ⟨[], ⟨false, [], some "Cannot read properties of undefined (reading \x27length\x27)"⟩⟩
  | some items => saveLoop (processItemSimple env) sp items 0 [] []


/-! ## Provider request construction — src/services/dalle-service.ts

`generateImage` builds a JSON body (lines 70-104); `editImage`,
`imageToImage` and `editMultipleImages` build the same multipart form
scalar fields (lines 294-319, 515-540, 663-688 — identical logic).
JS numbers are kept as exact values; the source stringifies them with
`toString()`, which is injective on the values concerned. -/

/-- The option bag shared by the four operations (only fields relevant to
request construction).  `output_compression` is any JS number, hence an
exact fraction. -/
structure ImageOptions where
  size : Option String := none
  quality : Option String := none
  background : Option String := none
  moderation : Option String := none
  output_format : Option String := none
  output_compression : Option JsNum := none
  n : Option Nat := none
deriving DecidableEq

/-- `a || d` for an optional string: absent or `""` (JS-falsy) gives the
default. -/
def jsOrStr (o : Option String) (d : String) : String :=
  match o with
  | some s => if s = "" then d else s
  | none => d

/-- `a || d` for an optional number: absent or `0` (JS-falsy) gives the
default. -/
def jsOrNum (o : Option JsNum) (d : JsNum) : JsNum :=
  match o with
  | some q => if q.num = 0 then d else q
  | none => d

/-- `options.n || 1`. -/
def jsOrN (o : Option Nat) : Nat :=
  match o with
  | some m => if m = 0 then 1 else m
  | none => 1

/-- `options.f && allowed.includes(options.f) ? options.f : absent` — the
enum-validated optional fields of `generateImage` (lines 81-96). -/
def validatedField (o : Option String) (allowed : List String) : Option String :=
  match o with
  | some s => if s ∈ allowed then some s else none
  | none => none

/-- The JSON payload of `generateImage` (lines 70-104), one field per
`requestParams` key. -/
structure GenRequestParams where
  model : String
  prompt : String
  n : Nat
  size : String
  quality : Option String
  background : Option String
  moderation : Option String
  output_format : Option String
  output_compression : Option JsNum
deriving DecidableEq

/-- `generateImage` request construction (lines 49-104).  Note that the
compression gate (lines 99-104) tests the DEFAULTED local `output_format`
(line 53, `options.output_format || 'png'`), checks
`typeof options.output_compression === 'number'` (no integrality test) and
the bounds `0 ≤ c ≤ 100`. -/
def buildGenerateRequest (prompt : String) (o : ImageOptions) : GenRequestParams :=
  let output_format := jsOrStr o.output_format "png"
  { model := "gpt-image-1"
    prompt := prompt
    n := jsOrN o.n
    size := normalizeSize o.size
    quality := validatedField o.quality ["auto", "high", "medium", "low"]
    background := validatedField o.background ["auto", "transparent", "opaque"]
    moderation := validatedField o.moderation ["auto", "low"]
    output_format := validatedField o.output_format ["png", "jpeg", "webp"]
    output_compression :=
      match o.output_compression with
      | some c =>
        if (output_format = "webp" ∨ output_format = "jpeg") ∧
            jsLe (jsOfNat 0) c ∧ jsLe c (jsOfNat 100) then some c
        else none
      | none => none }

/-- A multipart form value: the source appends strings, stringifying numbers
with `toString()`; the numeric payload is kept exact here. -/
inductive FormValue
  | s (v : String)
  | q (v : JsNum)
deriving DecidableEq

/-- The scalar multipart fields appended by `editImage` (lines 254-319); the
same statements appear verbatim in `imageToImage` (lines 483-540) and
`editMultipleImages` (lines 629-688).  Every `a || d` default makes the
guarded fields always truthy, and the compression gate
`(fmt === 'webp' || fmt === 'jpeg') && output_compression` always passes its
second conjunct because `options.output_compression || 100` is never `0`. -/
def buildEditForm (prompt : String) (o : ImageOptions) : List (String × FormValue) :=
  let size := normalizeSize o.size
  let quality := jsOrStr o.quality "auto"
  let background := jsOrStr o.background "auto"
  let moderation := jsOrStr o.moderation "auto"
  let output_format := jsOrStr o.output_format "png"
  let output_compression := jsOrNum o.output_compression (jsOfNat 100)
  let n := jsOrN o.n
  [("prompt", FormValue.s prompt), ("model", FormValue.s "gpt-image-1"),
   ("n", FormValue.q (jsOfNat n)), ("size", FormValue.s size)] ++
  (if quality ≠ "" then [("quality", FormValue.s quality)] else []) ++
  (if background ≠ "" then [("background", FormValue.s background)] else []) ++
  (if moderation ≠ "" then [("moderation", FormValue.s moderation)] else []) ++
  (if output_format ≠ "" then [("output_format", FormValue.s output_format)] else []) ++
  (if (output_format = "webp" ∨ output_format = "jpeg") ∧ ¬(output_compression.num = 0) then
    [("output_compression", FormValue.q output_compression)]
  else [])



/-! ## Mask rasterization and the edit_image handler — src/tools/index.ts
(handler lines 472-607)

Shape records arrive as untyped JSON; each numeric field is modelled as an
optional exact number (`none` = absent or not a number), and a polygon point
as an optional list (`none` = not an array).  The handler turns the shape
list into one SVG string (black background, white shapes) which `sharp`
rasterizes to a PNG; malformed entries contribute the empty string to the
`join('')`.  Numbers are printed with an injective renderer; the source's
decimal rendering differs only in digit format, which no claim depends on. -/

/-- Injective rendering of an exact number, standing in for the JS decimal
interpolation inside the SVG template strings. -/
def jsNumStr (a : JsNum) : String := toString a.num ++ "/" ++ toString a.den

/-- The dynamic `details` record of a shape: every field optional, `none`
models a missing field or one of the wrong type (the source checks
`typeof ... !== 'number'` resp. `Array.isArray`). -/
structure ShapeDetails where
  x : Option JsNum := none
  y : Option JsNum := none
  width : Option JsNum := none
  height : Option JsNum := none
  cx : Option JsNum := none
  cy : Option JsNum := none
  radius : Option JsNum := none
  points : Option (List (Option (List (Option JsNum)))) := none
deriving DecidableEq

/-- A caller-supplied `mask_shapes` entry: a `type` tag (any string) and an
optional `details` record (`!shape.details` is the first check, line 499). -/
structure Shape where
  type : String
  details : Option ShapeDetails := none
deriving DecidableEq

/-- Validity of one polygon point per line 513:
an array, of length exactly 2, both entries numbers. -/
def pointValid (p : Option (List (Option JsNum))) : Bool :=
  match p with
  | some q => q.length = 2 && q.all Option.isSome
  | none => false

/-- The predicate the `switch` of lines 500-521 effectively applies: shapes
failing it are skipped with a `console.warn` and contribute `''`. -/
def shapeValid (s : Shape) : Bool :=
  match s.details with
  | none => false
  | some d =>
    if s.type = "rectangle" then
      d.x.isSome && d.y.isSome && d.width.isSome && d.height.isSome
    else if s.type = "circle" then
      d.cx.isSome && d.cy.isSome && d.radius.isSome
    else if s.type = "polygon" then
      match d.points with
      | some pts => pts.all pointValid
      | none => false
    else false

/-- `points.map(p => p[0]*w + "," + p[1]*h)` element rendering (line 516). -/
def pointStr (w h : Nat) (p : Option (List (Option JsNum))) : String :=
  let q := p.getD []
  jsNumStr (jsMul ((q.getD 0 none).getD (jsOfNat 0)) (jsOfNat w)) ++ "," ++
    jsNumStr (jsMul ((q.getD 1 none).getD (jsOfNat 0)) (jsOfNat h))

/-- `Array.prototype.join(' ')`. -/
def joinSpace : List String → String
  | [] => ""
  | [s] => s
  | s :: rest => s ++ " " ++ joinSpace rest

/-- `Array.prototype.join('')`. -/
def joinAll : List String → String
  | [] => ""
  | s :: rest => s ++ joinAll rest

/-- The SVG fragment one shape contributes (lines 498-522): rectangle and
circle coordinates are denormalized by width/height, the circle radius by
`Math.min(imgWidth, imgHeight)`; malformed or unknown shapes yield `''`. -/
def svgFragment (w h : Nat) (s : Shape) : String :=
  match s.details with
  | none => ""
  | some d =>
    if s.type = "rectangle" then
      match d.x, d.y, d.width, d.height with
      | some x, some y, some sw, some sh =>
        "<rect x=\"" ++ jsNumStr (jsMul x (jsOfNat w)) ++
        "\" y=\"" ++ jsNumStr (jsMul y (jsOfNat h)) ++
        "\" width=\"" ++ jsNumStr (jsMul sw (jsOfNat w)) ++
        "\" height=\"" ++ jsNumStr (jsMul sh (jsOfNat h)) ++ "\" fill=\"white\" />"
      | _, _, _, _ => ""
    else if s.type = "circle" then
      match d.cx, d.cy, d.radius with
      | some cx, some cy, some r =>
        "<circle cx=\"" ++ jsNumStr (jsMul cx (jsOfNat w)) ++
        "\" cy=\"" ++ jsNumStr (jsMul cy (jsOfNat h)) ++
        "\" r=\"" ++ jsNumStr (jsMul r (jsOfNat (min w h))) ++ "\" fill=\"white\" />"
      | _, _, _ => ""
    else if s.type = "polygon" then
      match d.points with
      | some pts =>
        if pts.all pointValid then
          "<polygon points=\"" ++ joinSpace (pts.map (pointStr w h)) ++ "\" fill=\"white\" />"
        else ""
      | none => ""
    else ""

/-- `shapesSvg = args.mask_shapes.map(...).join('')` (lines 498-522). -/
def shapesSvg (w h : Nat) (shapes : List Shape) : String :=
  joinAll (shapes.map (svgFragment w h))

/-- The full SVG document of line 524: black full-canvas rect, then the
white shape fragments. -/
def buildMaskSvg (w h : Nat) (shapes : List Shape) : String :=
  "<svg width=\"" ++ toString w ++ "\" height=\"" ++ toString h ++
  "\"><rect width=\"100%\" height=\"100%\" fill=\"black\"/>" ++
  shapesSvg w h shapes ++ "</svg>"

/-- JS truthiness of `args.mask_shapes && args.mask_shapes.length > 0`
(an array, even `[]`, is truthy; `none` models absent/null). -/
def shapesTruthyNonempty (o : Option (List Shape)) : Bool :=
  match o with
  | some l => l.length > 0
  | none => false

/-- The `edit_image` arguments relevant to the pre-provider logic. -/
structure EditImageArgs where
  prompt : String
  imagePath : String
  mask : Option String := none
  mask_shapes : Option (List Shape) := none
deriving DecidableEq

/-- What the handler decided before any provider contact. -/
inductive MaskChoice
  | fromShapes (svg : String)
  | fromFile (absPath : String)
deriving DecidableEq

/-- Outcome of the handler prefix: an early text error (returned with no
provider request), a thrown exception (propagates, no provider request), or
proceeding to `dalleService.editImage` with the resolved input path and the
chosen mask. -/
inductive EditPrep
  | earlyError (text : String)
  | thrown (msg : String)
  | proceed (imagePathAbs : String) (mask : Option MaskChoice)
deriving DecidableEq

/-- The pre-provider part of the `edit_image` handler (lines 472-534):
resolve `imagePath`, reject `mask` + nonempty `mask_shapes`
(lines 481-488), rasterize shapes when supplied (lines 491-528, with
`dims` the `sharp` metadata — `none` or a zero dimension throws), else
resolve the `mask` path (lines 530-534). -/
def editImagePrep (cwd : String) (dims : Option (Nat × Nat)) (args : EditImageArgs) : EditPrep :=
  let imagePathAbs := resolveAbs cwd args.imagePath
  if strTruthy args.mask && shapesTruthyNonempty args.mask_shapes then
    .earlyError "Error: \x27mask\x27 (image path) and \x27mask_shapes\x27 (geometric shapes) are mutually exclusive. Provide one or the other, not both."
  else if shapesTruthyNonempty args.mask_shapes then
    match dims with
    | none => .thrown "Could not read image dimensions."
    | some wh =>
      if wh.1 = 0 ∨ wh.2 = 0 then .thrown "Could not read image dimensions."
      else .proceed imagePathAbs (some (.fromShapes (buildMaskSvg wh.1 wh.2 (args.mask_shapes.getD []))))
  else if strTruthy args.mask then
    .proceed imagePathAbs (some (.fromFile (resolveAbs cwd (args.mask.getD ""))))
  else .proceed imagePathAbs none

/-- Whether an `Except` holds a value (the loop iteration did not throw). -/
def exOk : Except String (List Nat) → Bool
  | .ok _ => true
  | .error _ => false

/-! ## Concrete instances used by witnesses and counterexamples -/

/-- Oracle where every fetch fails and every decode yields a one-byte
buffer. -/
def envOkDecode : NetEnv := ⟨fun _ => none, fun _ => some [0]⟩

/-- Oracle where every network and decode operation fails. -/
def envAllFail : NetEnv := ⟨fun _ => none, fun _ => none⟩

/-- An output spec requesting one image. -/
def specOne : OutputSpec := ⟨"/out", "img", "png", 1⟩

/-- An output spec requesting two images. -/
def specTwo : OutputSpec := ⟨"/out", "img", "png", 2⟩

/-- A well-formed base64 response item. -/
def itemB64 : ResponseItem := { b64_json := some "QUJD" }

/-- A response item with no recognizable image field. -/
def itemBad : ResponseItem := {}

/-- A filesystem oracle where creation and write probes always succeed. -/
def fsAllOk : FsEnv := ⟨fun _ => true, fun _ => true⟩

/-- A filesystem oracle where creation and write probes always fail
(e.g. a read-only volume): even the fallback `cwd` is unwritable. -/
def fsAllFail : FsEnv := ⟨fun _ => false, fun _ => false⟩

/-- Options selecting jpeg output with compression 150 (out of range). -/
def optsJpeg150 : ImageOptions := { output_format := some "jpeg", output_compression := some ⟨150, 1⟩ }

/-- `edit_image` arguments carrying both a mask path and a nonempty shape
list. -/
def argsBothMasks : EditImageArgs :=
  { prompt := "p", imagePath := "in.png", mask := some "/m.png",
    mask_shapes := some [⟨"rectangle", none⟩] }

/-- `edit_image` arguments carrying a mask path and an EMPTY shape list. -/
def argsEmptyShapes : EditImageArgs :=
  { prompt := "p", imagePath := "in.png", mask := some "/m.png", mask_shapes := some [] }

/-! # Theorems -/

/-! ## Helper lemmas -/

/-- The selection loop only ever returns a supported size. -/
lemma closest_mem (rw rh : Nat) : closestSupportedSize rw rh ∈ SUPPORTED_SIZES := by
  unfold closestSupportedSize
  by_cases h : rh = 0
  · simp [h, SUPPORTED_SIZES]
  · simp only [h, if_false, SUPPORTED_SIZES, List.foldl_cons, List.foldl_nil, List.headD]
    split_ifs <;> simp

/-! ## C1 — `normalize("1024x1024")` and `normalize("1536x1536")` -/

/-- C1, counterexample.  The claim asserts `normalize("1536x1536") ==
"1024x1024"` (aspect-ratio match said to dominate).  It does not: the
area-difference term (hundreds of thousands) dwarfs the ratio term (at most
`0.5 * 1000`), so the code picks `1024x1536`. -/
theorem C1_counterexample : normalizeSize (some "1536x1536") ≠ "1024x1024" := by decide

/-- C1, amended.  `normalize("1024x1024")` is returned unchanged, and
`normalize("1536x1536")` returns `"1024x1536"`: over the supported set, the
candidate minimizing `1000*|ratioDiff| + |areaDiff|` for the request
1536x1536 is `1024x1536`, because the area term dominates the
1000-weighted ratio term at these magnitudes; ties are still broken by
first occurrence in enumeration order (strict `<` against the running
minimum). -/
theorem C1_amended_theorem :
    normalizeSize (some "1024x1024") = "1024x1024" ∧
    normalizeSize (some "1536x1536") = "1024x1536" ∧
    jsLe (scoreFor 1536 1536 "1024x1536") (scoreFor 1536 1536 "1024x1024") = true ∧
    jsLe (scoreFor 1536 1536 "1024x1536") (scoreFor 1536 1536 "1536x1024") = true := by
  decide

/-! ## C4 — inputs not matching WIDTHxHEIGHT normalize to Auto -/

/-- C4, counterexample.  `"a1x1b"` is not absent, not `"auto"`, not a
supported size, and is not of the form `WIDTHxHEIGHT` — yet it does not
normalize to `"auto"`: the regex `/(\d+)x(\d+)/i` is an unanchored search,
finds the embedded `"1x1"` and the scorer returns `"1024x1024"`. -/
theorem C4_counterexample :
    ("a1x1b" : String) ∉ SUPPORTED_SIZES ∧ ("a1x1b" : String) ≠ "auto" ∧
    normalizeSize (some "a1x1b") = "1024x1024" := by decide

/-- C4, amended.  `normalize` returns `"auto"` exactly when the input is the
literal `"auto"`, or it is outside the supported set and CONTAINS no
substring matching `(\d+)[xX](\d+)` — the parse is an unanchored substring
search (digits may include zero, surrounding characters are ignored), not a
whole-string `WIDTHxHEIGHT` match.  (The empty string also yields `"auto"`
via the falsiness test and satisfies the right-hand side.) -/
theorem C4_amended_theorem (s : String) :
    normalizeSize (some s) = "auto" ↔
      (s = "auto" ∨ (s ∉ SUPPORTED_SIZES ∧ findSizeMatch s.data = none)) := by
  by_cases he : s = "" ∨ s = "auto"
  · rcases he with he | he <;> subst he <;> decide
  · push_neg at he
    obtain ⟨he1, he2⟩ := he
    simp only [normalizeSize]
    rw [if_neg (by tauto)]
    by_cases hm : s ∈ SUPPORTED_SIZES
    · rw [if_pos hm]
      constructor
      · intro h; exact absurd h he2
      · rintro (h | ⟨hnm, _⟩)
        · exact absurd h he2
        · exact absurd hm hnm
    · rw [if_neg hm]
      cases hf : findSizeMatch s.data with
      | none => simp [he2, hm]
      | some r =>
        have hmem : closestSupportedSize r.1 r.2 ∈ SUPPORTED_SIZES := closest_mem r.1 r.2
        have hne : closestSupportedSize r.1 r.2 ≠ "auto" := by
          intro hh
          rw [hh] at hmem
          revert hmem
          decide
        simp [he2, hm, hne]

/-- C4, witness: a string with no digits-x-digits substring normalizes to
`"auto"` via the amended equivalence. -/
theorem C4_witness : normalizeSize (some "banana") = "auto" :=
  ( C4_amended_theorem "banana").mpr (Or.inr ⟨by decide, by decide⟩)

/-! ## C5 — `resolveSaveDir` resolution, fallback and writability -/

/-- Resolving a relative path against an absolute base yields an absolute
path. -/
lemma isAbsolutePath_pathResolve (cwd p : String) (h : isAbsolutePath cwd = true) :
    isAbsolutePath (pathResolve cwd p) = true := by
  unfold isAbsolutePath at h ⊢
  unfold pathResolve
  rw [String.data_append, String.data_append]
  cases hcd : cwd.data with
  | nil => rw [hcd] at h; simp at h
  | cons c t => rw [hcd] at h; simpa using h

/-- The pre-check resolution (lines 78-93) preserves absoluteness of the
base directory. -/
lemma isAbsolutePath_resolveTarget (cwd : String) (d : Option String)
    (h : isAbsolutePath cwd = true) : isAbsolutePath (resolveTarget cwd d) = true := by
  cases d with
  | none => simpa [resolveTarget] using h
  | some s =>
    by_cases hs : s = ""
    · simp [resolveTarget, hs, h]
    · by_cases ha : isAbsolutePath s
      · simp [resolveTarget, hs, resolveAbs, ha]
      · simp [resolveTarget, hs, resolveAbs, ha, isAbsolutePath_pathResolve cwd s h]

/-- C5, counterexample.  The claim says `resolveSaveDir` "never returns a
non-writable path".  With a filesystem on which every creation and write
probe fails (e.g. a read-only volume), the requested directory fails the
probes, the function falls back to `cwd` — and returns it WITHOUT checking
that `cwd` is writable, so the returned path is non-writable. -/
theorem C5_counterexample :
    resolveSaveDir fsAllFail "/cwd" (some "/target") = "/cwd" ∧
    fsAllFail.writableOk "/cwd" = false := by decide

/-- C5, amended.  `resolveSaveDir` always returns an absolute path (the
process working directory being absolute); a creatable-and-writable input
resolves to its absolute form; any input failing creation or the write
probe falls back to `cwd` — but the fallback is NOT confirmed writable: it
is returned without a probe, so a non-writable path can be returned when
`cwd` itself is unwritable. -/
theorem C5_amended_theorem (fsv : FsEnv) (cwd : String) (d : Option String)
    (habs : isAbsolutePath cwd = true) :
    isAbsolutePath (resolveSaveDir fsv cwd d) = true ∧
    (fsv.ensureDirOk (resolveTarget cwd d) = true → fsv.writableOk (resolveTarget cwd d) = true →
      resolveSaveDir fsv cwd d = resolveTarget cwd d) ∧
    ((fsv.ensureDirOk (resolveTarget cwd d) = false ∨ fsv.writableOk (resolveTarget cwd d) = false) →
      resolveSaveDir fsv cwd d = cwd) := by
  refine ⟨?_, ?_, ?_⟩
  · unfold resolveSaveDir
    by_cases h1 : fsv.ensureDirOk (resolveTarget cwd d)
    · by_cases h2 : fsv.writableOk (resolveTarget cwd d)
      · simp [h1, h2, isAbsolutePath_resolveTarget cwd d habs]
      · simp [h1, h2, habs]
    · simp [h1, habs]
  · intro h1 h2
    unfold resolveSaveDir
    simp [h1, h2]
  · intro h
    unfold resolveSaveDir
    rcases h with h | h
    · simp [h]
    · by_cases h1 : fsv.ensureDirOk (resolveTarget cwd d) <;> simp [h1, h]

/-- C5, witness: a creatable-and-writable relative input resolves to its
absolute form under an all-succeeding filesystem. -/
theorem C5_witness : resolveSaveDir fsAllOk "/w" (some "rel") = resolveTarget "/w" (some "rel") :=
  (C5_amended_theorem fsAllOk "/w" (some "rel") (by decide)).2.1 (by decide) (by decide)

/-! ## Save-loop lemmas shared by C2 and C3 -/

/-- When the loop finishes, the reported paths count the accumulated plus
the remaining items; when it throws, nothing is reported. -/
lemma saveLoop_result (proc : ResponseItem → Except String (List Nat)) (sp : OutputSpec) :
    ∀ (items : List ResponseItem) (i : Nat) (written : List (String × List Nat))
      (paths : List String),
      ((saveLoop proc sp items i written paths).result.success = true →
        (saveLoop proc sp items i written paths).result.imagePaths.length =
          paths.length + items.length) ∧
      ((saveLoop proc sp items i written paths).result.success = false →
        (saveLoop proc sp items i written paths).result.imagePaths = []) := by
  intro items
  induction items with
  | nil => intro i written paths; simp [saveLoop]
  | cons it rest ih =>
    intro i written paths
    cases hp : proc it with
    | error e => simp [saveLoop, hp]
    | ok bs =>
      have := ih (i + 1) (written ++ [(savePath sp i, bs)]) (paths ++ [savePath sp i])
      constructor
      · intro hs
        rw [show (saveLoop proc sp (it :: rest) i written paths) =
              saveLoop proc sp rest (i + 1) (written ++ [(savePath sp i, bs)])
                (paths ++ [savePath sp i]) from by simp [saveLoop, hp]] at hs ⊢
        rw [this.1 hs]
        simp
        omega
      · intro hs
        rw [show (saveLoop proc sp (it :: rest) i written paths) =
              saveLoop proc sp rest (i + 1) (written ++ [(savePath sp i, bs)])
                (paths ++ [savePath sp i]) from by simp [saveLoop, hp]] at hs ⊢
        exact this.2 hs

/-- A prefix of successfully processed items is consumed by the loop,
appending exactly one written file and one path per item. -/
lemma saveLoop_ok_prefix (proc : ResponseItem → Except String (List Nat)) (sp : OutputSpec) :
    ∀ (good : List ResponseItem), (∀ it ∈ good, exOk (proc it) = true) →
    ∀ (tail : List ResponseItem) (i : Nat) (written : List (String × List Nat))
      (paths : List String),
      ∃ w2 p2, w2.length = good.length ∧
        saveLoop proc sp (good ++ tail) i written paths =
          saveLoop proc sp tail (i + good.length) (written ++ w2) (paths ++ p2) := by
  intro good
  induction good with
  | nil => intro _ tail i written paths; exact ⟨[], [], rfl, by simp⟩
  | cons g gs ih =>
    intro hg tail i written paths
    have hok : exOk (proc g) = true := hg g (by simp)
    cases hp : proc g with
    | error e => rw [hp] at hok; simp [exOk] at hok
    | ok bs =>
      obtain ⟨w2, p2, hlen, heq⟩ :=
        ih (fun it hit => hg it (by simp [hit])) tail (i + 1)
          (written ++ [(savePath sp i, bs)]) (paths ++ [savePath sp i])
      refine ⟨(savePath sp i, bs) :: w2, savePath sp i :: p2, by simp [hlen], ?_⟩
      rw [show ((g :: gs) ++ tail) = g :: (gs ++ tail) from rfl]
      rw [show (saveLoop proc sp (g :: (gs ++ tail)) i written paths) =
            saveLoop proc sp (gs ++ tail) (i + 1) (written ++ [(savePath sp i, bs)])
              (paths ++ [savePath sp i]) from by simp [saveLoop, hp]]
      rw [heq]
      congr 1
      · simp only [List.length_cons]
        omega
      · simp
      · simp

/-- A failing head item makes the loop return `success:false`, no reported
paths, an error message — while keeping the files written so far. -/
lemma saveLoop_bad_head (proc : ResponseItem → Except String (List Nat)) (sp : OutputSpec)
    (bad : ResponseItem) (rest : List ResponseItem) (i : Nat)
    (written : List (String × List Nat)) (paths : List String)
    (hb : exOk (proc bad) = false) :
    (saveLoop proc sp (bad :: rest) i written paths).result.success = false ∧
    (saveLoop proc sp (bad :: rest) i written paths).result.imagePaths = [] ∧
    ((saveLoop proc sp (bad :: rest) i written paths).result.error).isSome = true ∧
    (saveLoop proc sp (bad :: rest) i written paths).written = written := by
  cases hp : proc bad with
  | error e => simp [saveLoop, hp]
  | ok bs => rw [hp] at hb; simp [exOk] at hb

/-! ## C2 — saved-path count versus requested count -/

/-- C2, counterexample.  The claim says on success the saved-path list has
length equal to the requested count `n`.  The loops iterate over the
provider's `data` array without checking its length against `n`: a
response carrying one well-formed item for a request with `n = 2` yields
`success:true` with a single path. -/
theorem C2_counterexample :
    (reconcileGenerate envOkDecode specTwo (some [itemB64])).result.success = true ∧
    (reconcileGenerate envOkDecode specTwo (some [itemB64])).result.imagePaths.length ≠
      specTwo.n := by decide

/-- C2, amended.  For every operation (generate / edit / image-to-image /
multi-image-edit, the latter two sharing `reconcileSimple`): on success the
saved-path list has length equal to the number of items in the provider
response's `data` array — which equals the requested count only when the
provider honors `n`, a condition the code never checks — and on failure the
result reports no paths. -/
theorem C2_amended_theorem (env : NetEnv) (sp : OutputSpec)
    (data : Option (List ResponseItem)) :
    (((reconcileGenerate env sp data).result.success = true →
        (reconcileGenerate env sp data).result.imagePaths.length = (data.getD []).length) ∧
      ((reconcileGenerate env sp data).result.success = false →
        (reconcileGenerate env sp data).result.imagePaths = [])) ∧
    (((reconcileEdit env sp data).result.success = true →
        (reconcileEdit env sp data).result.imagePaths.length = (data.getD []).length) ∧
      ((reconcileEdit env sp data).result.success = false →
        (reconcileEdit env sp data).result.imagePaths = [])) ∧
    (((reconcileSimple env sp data).result.success = true →
        (reconcileSimple env sp data).result.imagePaths.length = (data.getD []).length) ∧
      ((reconcileSimple env sp data).result.success = false →
        (reconcileSimple env sp data).result.imagePaths = [])) := by
  cases data with
  | none => simp [reconcileGenerate, reconcileEdit, reconcileSimple]
  | some items =>
    refine ⟨?_, ?_, ?_⟩
    · by_cases h0 : items.length = 0
      · simp [reconcileGenerate, h0]
      · have := saveLoop_result (processItemGen env) sp items 0 [] []
        simpa [reconcileGenerate, h0] using this
    · by_cases h0 : items.length = 0
      · simp [reconcileEdit, h0]
      · have := saveLoop_result (processItemEdit env) sp items 0 [] []
        simpa [reconcileEdit, h0] using this
    · have := saveLoop_result (processItemSimple env) sp items 0 [] []
      simpa [reconcileSimple] using this

/-- C2, witness: a one-item response processed successfully for a request
with `n = 1` reports exactly one path. -/
theorem C2_witness :
    (reconcileGenerate envOkDecode specOne (some [itemB64])).result.imagePaths.length =
      (some [itemB64] |>.getD []).length :=
  (C2_amended_theorem envOkDecode specOne (some [itemB64])).1.1 (by decide)

/-! ## C6 — empty or missing data array -/

/-- C6, counterexample.  The claim says an empty-or-missing `data` array
yields `success:false` in EVERY operation.  `imageToImage` and
`editMultipleImages` have no guard: an empty array skips the save loop and
returns `success:true` (with zero paths). -/
theorem C6_counterexample :
    (reconcileSimple envAllFail specOne (some [])).result.success = true ∧
    (reconcileSimple envAllFail specOne (some [])).result.imagePaths = [] := by decide

/-- C6, amended.  `generateImage` and `editImage` guard the `data` array:
both a missing and an empty array produce `success:false` with zero paths.
`imageToImage` and `editMultipleImages` fail on a MISSING array (the
`data.data.length` access throws) but return `success:true` with zero
saved paths on an EMPTY array. -/
theorem C6_amended_theorem (env : NetEnv) (sp : OutputSpec) :
    (reconcileGenerate env sp none).result =
      ⟨false, [], some "Unexpected API response structure. Missing or empty data array."⟩ ∧
    (reconcileGenerate env sp (some [])).result =
      ⟨false, [], some "Unexpected API response structure. Missing or empty data array."⟩ ∧
    (reconcileEdit env sp none).result =
      ⟨false, [], some "Unexpected API response structure. Missing or empty data array."⟩ ∧
    (reconcileEdit env sp (some [])).result =
      ⟨false, [], some "Unexpected API response structure. Missing or empty data array."⟩ ∧
    (reconcileSimple env sp none).result =
      ⟨false, [], some "Cannot read properties of undefined (reading \x27length\x27)"⟩ ∧
    (reconcileSimple env sp (some [])).result = ⟨true, [], none⟩ :=
  ⟨rfl, rfl, rfl, rfl, rfl, rfl⟩

/-! ## C3 — all-or-nothing reporting versus on-disk persistence -/

/-- Shared core for C3: a batch whose head fails after a successfully
processed prefix reports nothing but keeps the prefix's files written. -/
lemma saveLoop_prefix_fail (proc : ResponseItem → Except String (List Nat)) (sp : OutputSpec)
    (good : List ResponseItem) (bad : ResponseItem) (rest : List ResponseItem)
    (hg : ∀ it ∈ good, exOk (proc it) = true) (hb : exOk (proc bad) = false) :
    (saveLoop proc sp (good ++ bad :: rest) 0 [] []).result.success = false ∧
    (saveLoop proc sp (good ++ bad :: rest) 0 [] []).result.imagePaths = [] ∧
    ((saveLoop proc sp (good ++ bad :: rest) 0 [] []).result.error).isSome = true ∧
    (saveLoop proc sp (good ++ bad :: rest) 0 [] []).written.length = good.length := by
  obtain ⟨w2, p2, hlen, heq⟩ := saveLoop_ok_prefix proc sp good hg (bad :: rest) 0 [] []
  rw [heq]
  have := saveLoop_bad_head proc sp bad rest (0 + good.length) ([] ++ w2) ([] ++ p2) hb
  refine ⟨this.1, this.2.1, this.2.2.1, ?_⟩
  rw [this.2.2.2]
  simpa using hlen

/-- C3, counterexample.  The claim says that when some item fails, "no
partial results are persisted to disk or reported".  Reporting is indeed
all-or-nothing, but persistence is not: each image is written inside the
loop before the next item is examined, so a success-then-failure response
leaves the first file on disk (one written file, `success:false`). -/
theorem C3_counterexample :
    (reconcileGenerate envOkDecode specTwo (some [itemB64, itemBad])).result.success = false ∧
    (reconcileGenerate envOkDecode specTwo (some [itemB64, itemBad])).written.length = 1 := by
  decide

/-- C3, amended.  For every provider response in which some item fails to
process (unrecognized structure, empty/failed decode, failed remote fetch),
`generateImage` and `editImage` reconciliation returns `success:false` with
an error message and REPORTS no partial paths — but the items processed
before the failing one have already been written to disk and are not
removed: partiality is prevented only in reporting, not in persistence. -/
theorem C3_amended_theorem (env : NetEnv) (sp : OutputSpec)
    (good : List ResponseItem) (bad : ResponseItem) (rest : List ResponseItem)
    (hgoodG : ∀ it ∈ good, exOk (processItemGen env it) = true)
    (hbadG : exOk (processItemGen env bad) = false)
    (hgoodE : ∀ it ∈ good, exOk (processItemEdit env it) = true)
    (hbadE : exOk (processItemEdit env bad) = false) :
    ((reconcileGenerate env sp (some (good ++ bad :: rest))).result.success = false ∧
     (reconcileGenerate env sp (some (good ++ bad :: rest))).result.imagePaths = [] ∧
     ((reconcileGenerate env sp (some (good ++ bad :: rest))).result.error).isSome = true ∧
     (reconcileGenerate env sp (some (good ++ bad :: rest))).written.length = good.length) ∧
    ((reconcileEdit env sp (some (good ++ bad :: rest))).result.success = false ∧
     (reconcileEdit env sp (some (good ++ bad :: rest))).result.imagePaths = [] ∧
     ((reconcileEdit env sp (some (good ++ bad :: rest))).result.error).isSome = true ∧
     (reconcileEdit env sp (some (good ++ bad :: rest))).written.length = good.length) := by
  have hne : ¬((good ++ bad :: rest).length = 0) := by simp
  constructor
  · have := saveLoop_prefix_fail (processItemGen env) sp good bad rest hgoodG hbadG
    simpa [reconcileGenerate, hne] using this
  · have := saveLoop_prefix_fail (processItemEdit env) sp good bad rest hgoodE hbadE
    simpa [reconcileEdit, hne] using this

/-- C3, witness: one good item followed by one unrecognizable item under a
decoding-capable oracle. -/
theorem C3_witness :
    ((reconcileGenerate envOkDecode specOne (some ([itemB64] ++ itemBad :: []))).result.success =
        false ∧
      (reconcileGenerate envOkDecode specOne
          (some ([itemB64] ++ itemBad :: []))).result.imagePaths = [] ∧
      ((reconcileGenerate envOkDecode specOne
          (some ([itemB64] ++ itemBad :: []))).result.error).isSome = true ∧
      (reconcileGenerate envOkDecode specOne (some ([itemB64] ++ itemBad :: []))).written.length =
        [itemB64].length) ∧
    ((reconcileEdit envOkDecode specOne (some ([itemB64] ++ itemBad :: []))).result.success =
        false ∧
      (reconcileEdit envOkDecode specOne
          (some ([itemB64] ++ itemBad :: []))).result.imagePaths = [] ∧
      ((reconcileEdit envOkDecode specOne
          (some ([itemB64] ++ itemBad :: []))).result.error).isSome = true ∧
      (reconcileEdit envOkDecode specOne (some ([itemB64] ++ itemBad :: []))).written.length =
        [itemB64].length) :=
  C3_amended_theorem envOkDecode specOne [itemB64] itemBad []
    (by decide) (by decide) (by decide) (by decide)

/-! ## C7 — inclusion rule for `output_compression` -/

/-- `a || d` with a nonempty default is never empty. -/
lemma jsOrStr_ne_empty (o : Option String) (d : String) (hd : d ≠ "") : jsOrStr o d ≠ "" := by
  cases o with
  | none => exact hd
  | some s => by_cases hs : s = "" <;> simp [jsOrStr, hs, hd]

/-- `a || d` with a nonzero default is never zero. -/
lemma jsOrNum_num_ne_zero (o : Option JsNum) (d : JsNum) (hd : ¬(d.num = 0)) :
    ¬((jsOrNum o d).num = 0) := by
  cases o with
  | none => exact hd
  | some q => by_cases h : q.num = 0 <;> simp [jsOrNum, h, hd]

/-- C7, counterexample.  The claim says `output_compression` is included
only when it is an integer in `[0,100]`.  The multipart builders append it
whenever the defaulted output format is jpeg/webp, with NO range check:
compression `150` is forwarded. -/
theorem C7_counterexample :
    List.lookup "output_compression" (buildEditForm "p" optsJpeg150) =
      some (FormValue.q ⟨150, 1⟩) := by decide

/-- C7, amended.  `generateImage` includes `output_compression` in the JSON
payload exactly when the caller supplied a number `c` with `0 ≤ c ≤ 100`
(integrality is NOT checked — any such number passes) and the DEFAULTED
output format (`options.output_format || 'png'`) is webp or jpeg.  The
multipart builders (`editImage`, `imageToImage`, `editMultipleImages`)
instead append an `output_compression` field whenever the defaulted output
format is webp or jpeg: the value is the caller's number if nonzero (range
unchecked) and the default `100` otherwise. -/
theorem C7_amended_theorem (prompt : String) (o : ImageOptions) (c : JsNum) :
    ((buildGenerateRequest prompt o).output_compression = some c ↔
      (o.output_compression = some c ∧
        (jsOrStr o.output_format "png" = "webp" ∨ jsOrStr o.output_format "png" = "jpeg") ∧
        jsLe (jsOfNat 0) c = true ∧ jsLe c (jsOfNat 100) = true)) ∧
    (List.lookup "output_compression" (buildEditForm prompt o) =
      if jsOrStr o.output_format "png" = "webp" ∨ jsOrStr o.output_format "png" = "jpeg" then
        some (FormValue.q (jsOrNum o.output_compression (jsOfNat 100)))
      else none) := by
  constructor
  · simp only [buildGenerateRequest]
    cases hoc : o.output_compression with
    | none => simp
    | some q =>
      dsimp only
      by_cases hf : (jsOrStr o.output_format "png" = "webp" ∨
          jsOrStr o.output_format "png" = "jpeg")
      · by_cases h0 : jsLe (jsOfNat 0) q = true
        · by_cases h100 : jsLe q (jsOfNat 100) = true
          · rw [if_pos ⟨hf, h0, h100⟩]
            constructor
            · intro hqc
              have hq : q = c := by injection hqc
              subst hq
              exact ⟨rfl, hf, h0, h100⟩
            · intro hr
              exact hr.1
          · rw [if_neg (by tauto)]
            constructor
            · intro hqc; exact Option.noConfusion hqc
            · rintro ⟨hqc, -, -, hc⟩
              have hq : q = c := by injection hqc
              subst hq
              exact absurd hc h100
        · rw [if_neg (by tauto)]
          constructor
          · intro hqc; exact Option.noConfusion hqc
          · rintro ⟨hqc, -, hc, -⟩
            have hq : q = c := by injection hqc
            subst hq
            exact absurd hc h0
      · rw [if_neg (by tauto)]
        constructor
        · intro hqc; exact Option.noConfusion hqc
        · rintro ⟨-, hc, -, -⟩
          exact absurd hc hf
  · have hq : jsOrStr o.quality "auto" ≠ "" := jsOrStr_ne_empty _ _ (by decide)
    have hb : jsOrStr o.background "auto" ≠ "" := jsOrStr_ne_empty _ _ (by decide)
    have hm : jsOrStr o.moderation "auto" ≠ "" := jsOrStr_ne_empty _ _ (by decide)
    have hof : jsOrStr o.output_format "png" ≠ "" := jsOrStr_ne_empty _ _ (by decide)
    have hcz : ¬((jsOrNum o.output_compression (jsOfNat 100)).num = 0) :=
      jsOrNum_num_ne_zero _ _ (by decide)
    by_cases hf : (jsOrStr o.output_format "png" = "webp" ∨
        jsOrStr o.output_format "png" = "jpeg")
    · rw [if_pos hf]
      simp [buildEditForm, hq, hb, hm, hof, hf, hcz, List.lookup]
    · rw [if_neg hf]
      simp [buildEditForm, hq, hb, hm, hof, hf, List.lookup]

/-- C7, witness: an in-range compression for a jpeg generate request is
forwarded. -/
theorem C7_witness :
    (buildGenerateRequest "p"
        { output_format := some "jpeg", output_compression := some ⟨50, 1⟩ }).output_compression =
      some ⟨50, 1⟩ :=
  ( C7_amended_theorem "p"
      { output_format := some "jpeg", output_compression := some ⟨50, 1⟩ } ⟨50, 1⟩).1.mpr
    ⟨rfl, by decide, by decide, by decide⟩

/-! ## C8 — mask and mask_shapes are mutually exclusive -/

/-- C8.  Supplying both a truthy `mask` path and a nonempty `mask_shapes`
array makes the handler return the mutual-exclusivity error text before any
shape rasterization and before any provider call (only the `proceed`
outcome reaches `dalleService.editImage`). -/
theorem C8_theorem (cwd : String) (dims : Option (Nat × Nat)) (args : EditImageArgs)
    (hm : strTruthy args.mask = true) (hs : shapesTruthyNonempty args.mask_shapes = true) :
    editImagePrep cwd dims args =
      .earlyError "Error: \x27mask\x27 (image path) and \x27mask_shapes\x27 (geometric shapes) are mutually exclusive. Provide one or the other, not both." := by
  unfold editImagePrep
  simp [hm, hs]

/-- C8, witness: a concrete call carrying both mask forms. -/
theorem C8_witness :
    editImagePrep "/c" none argsBothMasks =
      .earlyError "Error: \x27mask\x27 (image path) and \x27mask_shapes\x27 (geometric shapes) are mutually exclusive. Provide one or the other, not both." :=
  C8_theorem "/c" none argsBothMasks (by decide) (by decide)

/-! ## C9 — malformed shapes are skipped individually -/

/-- A shape failing the validity checks contributes the empty fragment. -/
lemma svgFragment_eq_empty (w h : Nat) (s : Shape) (hv : shapeValid s = false) :
    svgFragment w h s = "" := by
  obtain ⟨t, details⟩ := s
  cases details with
  | none => rfl
  | some d =>
    obtain ⟨x, y, sw, sh, cx, cy, r, pts⟩ := d
    by_cases h1 : t = "rectangle"
    · subst h1
      cases x <;> cases y <;> cases sw <;> cases sh <;> simp_all [svgFragment, shapeValid]
    · by_cases h2 : t = "circle"
      · subst h2
        cases cx <;> cases cy <;> cases r <;> simp_all [svgFragment, shapeValid]
      · by_cases h3 : t = "polygon"
        · subst h3
          cases pts with
          | none => simp [svgFragment]
          | some pl => simp_all [svgFragment, shapeValid]
        · simp [svgFragment, shapeValid, h1, h2, h3]

/-- One step of `map`/`join('')`. -/
lemma shapesSvg_cons (w h : Nat) (s : Shape) (rest : List Shape) :
    shapesSvg w h (s :: rest) = svgFragment w h s ++ shapesSvg w h rest := rfl

/-- Dropping the invalid shapes does not change the joined SVG. -/
lemma shapesSvg_filter (w h : Nat) (S : List Shape) :
    shapesSvg w h S = shapesSvg w h (S.filter shapeValid) := by
  induction S with
  | nil => rfl
  | cons s rest ih =>
    by_cases hv : shapeValid s
    · rw [List.filter_cons_of_pos (by simpa using hv), shapesSvg_cons, shapesSvg_cons, ih]
    · rw [List.filter_cons_of_neg (by simpa using hv), shapesSvg_cons,
        svgFragment_eq_empty w h s (by simpa using hv), ih]
      exact String.empty_append _

/-- C9.  Every malformed shape record and every unknown shape tag is skipped
individually: the SVG joined from a shape list equals the SVG joined from
the list with the invalid shapes removed, and likewise for the full mask
document `sharp` rasterizes — so the rendered mask is identical and the
remaining shapes are still rasterized. -/
theorem C9_theorem (w h : Nat) (S : List Shape) :
    shapesSvg w h S = shapesSvg w h (S.filter shapeValid) ∧
    buildMaskSvg w h S = buildMaskSvg w h (S.filter shapeValid) := by
  refine ⟨shapesSvg_filter w h S, ?_⟩
  unfold buildMaskSvg
  rw [shapesSvg_filter w h S]

/-! ## C10 — an empty mask_shapes array is treated as absent -/

/-- C10.  With `mask` set (nonempty path) and `mask_shapes` present but
equal to `[]`, the mutual-exclusivity check does not fire (`length > 0`
fails), the shapes branch is skipped (no mask is rasterized), and the
handler proceeds to the provider call using the resolved mask file. -/
theorem C10_theorem (cwd : String) (dims : Option (Nat × Nat)) (args : EditImageArgs)
    (m : String) (hm : args.mask = some m) (hne : m ≠ "")
    (hs : args.mask_shapes = some []) :
    editImagePrep cwd dims args =
      .proceed (resolveAbs cwd args.imagePath) (some (.fromFile (resolveAbs cwd m))) := by
  unfold editImagePrep
  simp [hm, hs, strTruthy, shapesTruthyNonempty, hne]

/-- C10, witness: a concrete call with an empty shape list and a mask file
proceeds with the mask file. -/
theorem C10_witness :
    editImagePrep "/c" none argsEmptyShapes =
      .proceed (resolveAbs "/c" argsEmptyShapes.imagePath)
        (some (.fromFile (resolveAbs "/c" "/m.png"))) :=
  C10_theorem "/c" none argsEmptyShapes "/m.png" (by decide) (by decide) (by decide)

end GptImage
